import Mathlib

/-!
# Verification of the SportsClubApp business-logic layer

Shallow embedding of the scheduling and attendance services of the
SportsClubApp repository (`src/services/classService.js`,
`src/services/attendanceService.js`, `src/components/AttendanceModal.js`),
together with proofs of the specified properties.

Calendar dates (ISO `YYYY-MM-DD` strings in the source) are modelled as
natural numbers counting days since the Unix epoch (1970-01-01, a Thursday);
ISO-string comparison on valid dates is order-isomorphic to this model.
The hosted document store is modelled as an explicit list of documents with
a monotone id counter; a write that the store rejects is modelled by a
boolean failure flag at the corresponding call site (the JavaScript wraps
every store call in try/catch and converts failures into
`{success:false}` results).
-/

namespace SportsClub

/-- Day of week of an epoch-day number, JavaScript `Date.getDay()` convention:
0 = Sunday .. 6 = Saturday.  Day 0 (1970-01-01) was a Thursday (4). -/
def dayOfWeek (d : Nat) : Nat := (d + 4) % 7

/-- Embedding of `classService.generateDateRange(startDate, endDate,
selectedDays, skipDates)`: walk every calendar day from `startDate` to
`endDate` inclusive, keeping a day iff its weekday is in `selectedDays`
and it is not in `skipDates`. -/
def generateDateRange (startDate endDate : Nat) (selectedDays : List Nat)
    (skipDates : List Nat) : List Nat :=
  (List.range' startDate (endDate + 1 - startDate)).filter
    (fun d => selectedDays.contains (dayOfWeek d) && !skipDates.contains d)

theorem generateDateRange_mem {startDate endDate : Nat} {selectedDays skipDates : List Nat}
    {d : Nat} (h : d ∈ generateDateRange startDate endDate selectedDays skipDates) :
    selectedDays.contains (dayOfWeek d) = true ∧ startDate ≤ d ∧ d ≤ endDate ∧
      skipDates.contains d = false := by
  unfold generateDateRange at h
  have hmem := List.mem_of_mem_filter h
  have hpred := List.of_mem_filter h
  rw [List.mem_range'_1] at hmem
  rw [Bool.and_eq_true, Bool.not_eq_true'] at hpred
  exact ⟨hpred.1, hmem.1, by omega, hpred.2⟩

theorem generateDateRange_sorted (startDate endDate : Nat)
    (selectedDays skipDates : List Nat) :
    (generateDateRange startDate endDate selectedDays skipDates).Pairwise (· < ·) := by
  unfold generateDateRange
  exact (List.pairwise_lt_range' startDate _ 1 (by omega)).sublist
    (List.filter_sublist _)

/-- JavaScript `String.prototype.trim` whitespace class (the characters that
matter for batch-time labels; ASCII whitespace). -/
def isJsWhitespace (c : Char) : Bool :=
  c = ' ' || c = '\t' || c = '\n' || c = '\r' || c = '\x0b' || c = '\x0c'

/-- Trim on the character list: drop the whitespace run at both ends. -/
def jsTrimList (l : List Char) : List Char :=
  ((l.dropWhile isJsWhitespace).reverse.dropWhile isJsWhitespace).reverse

/-- Embedding of JavaScript `batchTime.trim()`. -/
def jsTrim (s : String) : String := ⟨jsTrimList s.data⟩

theorem jsTrimList_eq_rdropWhile_dropWhile (l : List Char) :
    jsTrimList l = List.rdropWhile isJsWhitespace (l.dropWhile isJsWhitespace) := rfl

/-- The two-sided trim leaves a list whose head is not whitespace, so a second
left-trim is the identity on it. -/
theorem dropWhile_jsTrimList (l : List Char) :
    (jsTrimList l).dropWhile isJsWhitespace = jsTrimList l := by
  rw [jsTrimList_eq_rdropWhile_dropWhile, List.dropWhile_eq_self_iff]
  intro hl
  obtain ⟨r, hr⟩ :=
    List.rdropWhile_prefix isJsWhitespace (l.dropWhile isJsWhitespace)
  have hlen : 0 < (l.dropWhile isJsWhitespace).length := by
    rw [← hr, List.length_append] at *
    omega
  have hget : (List.rdropWhile isJsWhitespace (l.dropWhile isJsWhitespace)).get ⟨0, hl⟩ =
      (l.dropWhile isJsWhitespace).get ⟨0, hlen⟩ := by
    simp only [List.get_eq_getElem]
    rw [List.getElem_of_eq hr.symm hlen, List.getElem_append_left]
  rw [hget]
  exact List.dropWhile_get_zero_not isJsWhitespace l hlen

/-- The two-sided trim is idempotent. -/
theorem jsTrimList_idem (l : List Char) : jsTrimList (jsTrimList l) = jsTrimList l := by
  rw [jsTrimList_eq_rdropWhile_dropWhile (jsTrimList l), dropWhile_jsTrimList,
    jsTrimList_eq_rdropWhile_dropWhile l, List.rdropWhile_idempotent]

theorem jsTrim_idem (s : String) : jsTrim (jsTrim s) = jsTrim s := by
  unfold jsTrim
  exact congrArg String.mk (jsTrimList_idem s.data)

/-- The fixed legacy-to-canonical mapping table of `normalizeBatchTime`
(`AttendanceModal.js`, `batchMappings`). -/
def batchMappings : List (String × String) :=
  [("Morning (8-10)", "Morning batch (8:00-10:00)"),
   ("Evening (4-6)", "Evening batch (4:00-6:00)"),
   ("06:00 - 07:00", "Morning batch (8:00-10:00)"),
   ("16:00 - 18:00", "Evening batch (4:00-6:00)"),
   ("08:00 - 10:00", "Morning batch (8:00-10:00)"),
   ("04:00 - 06:00", "Evening batch (4:00-6:00)"),
   ("4:00-6:00", "Evening batch (4:00-6:00)"),
   ("8:00-10:00", "Morning batch (8:00-10:00)")]

/-- Embedding of `normalizeBatchTime` (`AttendanceModal.js`): empty input maps
to the empty string, otherwise trim and look the trimmed string up in the
legacy table, falling back to the trimmed input. -/
def normalizeBatchTime (batchTime : String) : String :=
  if batchTime = "" then ""
  else
    match batchMappings.lookup (jsTrim batchTime) with
    | some v => v
    | none => jsTrim batchTime

/-- A stored attendance document (`attendanceService.js` header comment):
booleans are persisted as the string tokens `"true"` / `"false"`. -/
structure AttendanceDoc where
  docId : Nat
  class_id : String
  student_id : String
  class_date : String
  is_present : String
  payment_complete : String
  marked_by : String
  marked_at : String
  notes : String
  created_at : String
deriving DecidableEq

/-- The `attendance` collection of the document store, with the store's
id generator modelled as a monotone counter. -/
structure AttendanceStore where
  docs : List AttendanceDoc
  nextId : Nat
deriving DecidableEq

/-- Encoding `attendanceData.is_present ? 'true' : 'false'`. -/
def boolToStr (b : Bool) : String := if b then "true" else "false"

/-- Argument record of `markAttendance`. -/
structure AttendanceInput where
  class_id : String
  student_id : String
  class_date : String
  is_present : Bool
  payment_complete : Bool
  marked_by : String
  notes : Option String
deriving DecidableEq

/-- Normalization `attendanceData.notes?.trim() || ''`. -/
def normNotes (n : Option String) : String :=
  match n with
  | none => ""
  | some s => jsTrim s

/-- The three equality filters of `getAttendanceRecord`. -/
def matchesTriple (classId studentId classDate : String) (d : AttendanceDoc) : Bool :=
  d.class_id == classId && d.student_id == studentId && d.class_date == classDate

/-- Embedding of `getAttendanceRecord(classId, studentId, classDate)`:
list the documents equal on the triple with `Query.limit(1)` and return the
first, or `null`. -/
def getAttendanceRecord (s : AttendanceStore) (classId studentId classDate : String) :
    Option AttendanceDoc :=
  s.docs.find? (matchesTriple classId studentId classDate)

/-- The partial document written by the `updateDocument` call of
`markAttendance`: exactly the five fields `is_present`, `payment_complete`,
`marked_by`, `marked_at`, `notes`. -/
def updateFields (a : AttendanceInput) (now : String) (d : AttendanceDoc) : AttendanceDoc :=
  { d with
    is_present := boolToStr a.is_present
    payment_complete := boolToStr a.payment_complete
    marked_by := a.marked_by
    marked_at := now
    notes := normNotes a.notes }

/-- The full document written by the `createDocument` call of
`markAttendance`. -/
def newAttendanceDoc (a : AttendanceInput) (now : String) (id : Nat) : AttendanceDoc :=
  { docId := id
    class_id := a.class_id
    student_id := a.student_id
    class_date := a.class_date
    is_present := boolToStr a.is_present
    payment_complete := boolToStr a.payment_complete
    marked_by := a.marked_by
    marked_at := now
    notes := normNotes a.notes
    created_at := now }

/-- Outcome of `markAttendance`: `{success:true, data, wasUpdate}` or the
caught-error result `{success:false, error}`. -/
inductive MarkResult where
  | ok (record : AttendanceDoc) (wasUpdate : Bool)
  | err
deriving DecidableEq

/-- Embedding of `markAttendance(attendanceData)`: look up an existing record
for the `(class_id, student_id, class_date)` triple, then either update that
document in place or create a new one.  `writeFails` models the store
rejecting the write (the JavaScript catches the throw and returns
`{success:false}`, leaving the store unchanged). -/
def markAttendance (writeFails : Bool) (now : String) (a : AttendanceInput)
    (s : AttendanceStore) : MarkResult × AttendanceStore :=
  match getAttendanceRecord s a.class_id a.student_id a.class_date with
  | some existing =>
    if writeFails then (MarkResult.err, s)
    else
      (MarkResult.ok (updateFields a now existing) true,
        { s with
          docs := s.docs.map fun d =>
            if d.docId == existing.docId then updateFields a now d else d })
  | none =>
    if writeFails then (MarkResult.err, s)
    else
      (MarkResult.ok (newAttendanceDoc a now s.nextId) false,
        { docs := s.docs ++ [newAttendanceDoc a now s.nextId], nextId := s.nextId + 1 })

/-- Number of stored records for one `(classId, studentId, classDate)` triple. -/
def countTriple (s : AttendanceStore) (classId studentId classDate : String) : Nat :=
  (s.docs.filter (matchesTriple classId studentId classDate)).length

theorem matchesTriple_update_invariant (c st dt : String) (a : AttendanceInput)
    (now : String) (q : Bool) (d : AttendanceDoc) :
    matchesTriple c st dt (if q then updateFields a now d else d) =
      matchesTriple c st dt d := by
  cases q <;> rfl

theorem length_filter_map_of_pred_eq {α : Type} (f : α → α) (p : α → Bool)
    (h : ∀ x, p (f x) = p x) (l : List α) :
    ((l.map f).filter p).length = (l.filter p).length := by
  induction l with
  | nil => rfl
  | cons x l ih =>
    simp only [List.map_cons, List.filter_cons, h x]
    cases hp : p x <;> simp [ih]

theorem markAttendance_found (s : AttendanceStore) (a : AttendanceInput) (now : String)
    (ex : AttendanceDoc)
    (hfound : getAttendanceRecord s a.class_id a.student_id a.class_date = some ex) :
    markAttendance false now a s =
      (MarkResult.ok (updateFields a now ex) true,
        { s with
          docs := s.docs.map fun d =>
            if d.docId == ex.docId then updateFields a now d else d }) := by
  simp [markAttendance, hfound]

theorem markAttendance_notFound (s : AttendanceStore) (a : AttendanceInput) (now : String)
    (hnone : getAttendanceRecord s a.class_id a.student_id a.class_date = none) :
    markAttendance false now a s =
      (MarkResult.ok (newAttendanceDoc a now s.nextId) false,
        { docs := s.docs ++ [newAttendanceDoc a now s.nextId], nextId := s.nextId + 1 }) := by
  simp [markAttendance, hnone]

theorem newAttendanceDoc_matches (a : AttendanceInput) (now : String) (id : Nat) :
    matchesTriple a.class_id a.student_id a.class_date (newAttendanceDoc a now id) = true := by
  simp [matchesTriple, newAttendanceDoc]

/-- One entry of the `attendanceUpdates` argument of `bulkUpdateAttendance`. -/
structure BulkUpdate where
  student_id : String
  is_present : Bool
  payment_complete : Bool
  notes : Option String
deriving DecidableEq

/-- The per-student argument record `bulkUpdateAttendance` passes to
`markAttendance` (`update.notes || ''`). -/
def bulkInput (classId classDate markedBy : String) (u : BulkUpdate) : AttendanceInput :=
  { class_id := classId
    student_id := u.student_id
    class_date := classDate
    is_present := u.is_present
    payment_complete := u.payment_complete
    marked_by := markedBy
    notes := some (u.notes.getD "") }

/-- The `for (const update of attendanceUpdates)` loop of
`bulkUpdateAttendance`: each update carries the flag saying whether the store
rejects its write; successes are accumulated in order, failures are recorded
by student id and processing continues.  Returns
`(results, errors, final store)`. -/
def bulkRun (classId classDate markedBy now : String) :
    List (BulkUpdate × Bool) → AttendanceStore →
      List AttendanceDoc × List String × AttendanceStore
  | [], s => ([], [], s)
  | (u, wf) :: rest, s =>
    match markAttendance wf now (bulkInput classId classDate markedBy u) s with
    | (MarkResult.ok doc _, s₁) =>
      let r := bulkRun classId classDate markedBy now rest s₁
      (doc :: r.1, r.2.1, r.2.2)
    | (MarkResult.err, s₁) =>
      let r := bulkRun classId classDate markedBy now rest s₁
      (r.1, u.student_id :: r.2.1, r.2.2)

/-- Aggregate result of `bulkUpdateAttendance`. -/
structure BulkAttendanceResult where
  successful : List AttendanceDoc
  failed : List String
  totalProcessed : Nat
  successCount : Nat
  errorCount : Nat
deriving DecidableEq

/-- Embedding of `bulkUpdateAttendance(attendanceUpdates, classId, classDate,
markedBy)`. -/
def bulkUpdateAttendance (updates : List (BulkUpdate × Bool))
    (classId classDate markedBy now : String) (s : AttendanceStore) :
    BulkAttendanceResult × AttendanceStore :=
  let r := bulkRun classId classDate markedBy now updates s
  ({ successful := r.1
     failed := r.2.1
     totalProcessed := updates.length
     successCount := r.1.length
     errorCount := r.2.1.length }, r.2.2)

theorem markAttendance_write_rejected (now : String) (a : AttendanceInput)
    (s : AttendanceStore) : markAttendance true now a s = (MarkResult.err, s) := by
  cases h : getAttendanceRecord s a.class_id a.student_id a.class_date <;>
    simp [markAttendance, h]

theorem markAttendance_write_accepted (now : String) (a : AttendanceInput)
    (s : AttendanceStore) :
    ∃ doc b s', markAttendance false now a s = (MarkResult.ok doc b, s') := by
  cases h : getAttendanceRecord s a.class_id a.student_id a.class_date with
  | none =>
    exact ⟨newAttendanceDoc a now s.nextId, false, _, markAttendance_notFound s a now h⟩
  | some ex =>
    exact ⟨updateFields a now ex, true, _, markAttendance_found s a now ex h⟩

theorem bulkRun_counts (classId classDate markedBy now : String)
    (updates : List (BulkUpdate × Bool)) (s : AttendanceStore) :
    (bulkRun classId classDate markedBy now updates s).1.length =
      (updates.filter fun uw => !uw.2).length ∧
    (bulkRun classId classDate markedBy now updates s).2.1.length =
      (updates.filter fun uw => uw.2).length := by
  induction updates generalizing s with
  | nil => simp [bulkRun]
  | cons head rest ih =>
    obtain ⟨u, wf⟩ := head
    cases wf
    · obtain ⟨doc, b, s', hms⟩ :=
        markAttendance_write_accepted now (bulkInput classId classDate markedBy u) s
      simp [bulkRun, hms, List.filter_cons, ih s']
    · simp [bulkRun, markAttendance_write_rejected now _ s, List.filter_cons, ih s]

/-- A stored class document (`classService.js` header comment); calendar
dates are epoch-day numbers in this model. -/
structure ClassDoc where
  docId : Nat
  title : String
  sport : String
  date : Nat
  time : String
  instructor : String
  instructor_id : String
  description : String
  max_participants : Nat
  current_participants : Nat
  created_at : String
  updated_at : String
deriving DecidableEq

/-- The `classes` collection of the document store. -/
structure ClassStore where
  docs : List ClassDoc
  nextId : Nat
deriving DecidableEq

/-- Constant `DEFAULT_SPORT = 'Football'` of the class service. -/
def DEFAULT_SPORT : String := "Football"

/-- Embedding of `getClassesInDateRange(startDate, endDate)`: the documents
whose date lies in `[startDate, endDate]`, capped by `Query.limit(500)`.
The store's `(date, time)` response ordering is irrelevant to the properties
proved here, so store order is kept. -/
def getClassesInDateRange (store : ClassStore) (startDate endDate : Nat) : List ClassDoc :=
  (store.docs.filter fun c => decide (startDate ≤ c.date) && decide (c.date ≤ endDate)).take 500

/-- A draft class produced by the planner (not yet persisted). -/
structure Candidate where
  title : String
  sport : String
  date : Nat
  time : String
  instructor : String
  instructor_id : String
  description : String
  max_participants : Nat
deriving DecidableEq

/-- Argument record of `previewBulkClasses` / `createBulkClasses` (with the
defaults `skipDates = []`, `titleTemplate = "Football Training"`,
`skipConflicts = true` already applied by the caller). -/
structure BulkData where
  startDate : Nat
  endDate : Nat
  selectedDays : List Nat
  selectedTimes : List String
  skipDates : List Nat
  instructor : String
  instructorId : String
  titleTemplate : String
  skipConflicts : Bool
deriving DecidableEq

/-- The draft pushed by the planner's nested `forEach` loops. -/
def mkCandidate (b : BulkData) (date : Nat) (time : String) : Candidate :=
  { title := b.titleTemplate
    sport := DEFAULT_SPORT
    date := date
    time := time
    instructor := b.instructor
    instructor_id := b.instructorId
    description := "Auto-generated class for " ++ toString date
    max_participants := 20 }

/-- A conflict entry of the planner. -/
structure Conflict where
  date : Nat
  time : String
  existingClass : ClassDoc
deriving DecidableEq

/-- The `data` of a successful `previewBulkClasses` result. -/
structure PreviewData where
  previewClasses : List Candidate
  totalClasses : Nat
  conflicts : List Conflict
deriving DecidableEq

/-- Embedding of `previewBulkClasses(bulkData)`.  `rangeOk` models whether
the `getClassesInDateRange` store query succeeds; when it fails the
JavaScript keeps `conflicts` empty and still returns success. -/
def previewBulkClasses (rangeOk : Bool) (store : ClassStore) (b : BulkData) : PreviewData :=
  let dates := generateDateRange b.startDate b.endDate b.selectedDays b.skipDates
  let previewClasses :=
    dates.flatMap fun date => b.selectedTimes.map fun time => mkCandidate b date time
  let totalClasses := dates.length * b.selectedTimes.length
  let existingClasses := getClassesInDateRange store b.startDate b.endDate
  let conflicts :=
    if rangeOk then
      previewClasses.filterMap fun pc =>
        (existingClasses.find? fun ex => ex.date == pc.date && ex.time == pc.time).map
          fun ex => Conflict.mk pc.date pc.time ex
    else []
  ⟨previewClasses, totalClasses, conflicts⟩

/-- The `classDocument` object built by `createClass` before the store write:
`title.trim()`, `instructor.trim()`, `description?.trim() || ''`,
`maxParticipants || 20`, `current_participants: 0`. -/
def builtClassDoc (now : String) (c : Candidate) (s : ClassStore) : ClassDoc :=
  { docId := s.nextId
    title := jsTrim c.title
    sport := c.sport
    date := c.date
    time := c.time
    instructor := jsTrim c.instructor
    instructor_id := c.instructor_id
    description := jsTrim c.description
    max_participants := if c.max_participants == 0 then 20 else c.max_participants
    current_participants := 0
    created_at := now
    updated_at := now }

/-- Embedding of `createClass(classData)` as called by the bulk committer;
`fails` models the store rejecting the write (caught in JavaScript and
returned as `{success:false}`). -/
def createClass (fails : Bool) (now : String) (c : Candidate) (s : ClassStore) :
    Option ClassDoc × ClassStore :=
  if fails then (none, s)
  else
    (some (builtClassDoc now c s), ⟨s.docs ++ [builtClassDoc now c s], s.nextId + 1⟩)

structure SkipEntry where
  date : Nat
  time : String
  reason : String
deriving DecidableEq

structure ErrEntry where
  date : Nat
  time : String
  error : String
deriving DecidableEq

/-- The `results` object of `createBulkClasses`. -/
structure BulkCreateData where
  created : List ClassDoc
  skipped : List SkipEntry
  errors : List ErrEntry
deriving DecidableEq

/-- Outcome of `createBulkClasses`: success with the results object, or the
fail-fast `{success:false, error:"Bulk operation too large..."}` return. -/
inductive BulkCreateResult where
  | ok (data : BulkCreateData)
  | overflow (requested : Nat)
deriving DecidableEq

/-- The `(date, time)` keys of the conflict list (the JavaScript builds a
`Set` of `` `${date}-${time}` `` strings; epoch-day `toString` contains no
`'-'`, so the string key is in bijection with the pair). -/
def conflictKeys (conflicts : List Conflict) : List (Nat × String) :=
  conflicts.map fun c => (c.date, c.time)

/-- The `classesToCreate` local of `createBulkClasses`: filter the conflicts
out iff `skipConflicts` is set and at least one conflict was reported. -/
def classesToCreate (b : BulkData) (p : PreviewData) : List Candidate :=
  if b.skipConflicts && decide (p.conflicts.length > 0) then
    p.previewClasses.filter fun cls =>
      !(conflictKeys p.conflicts).contains (cls.date, cls.time)
  else p.previewClasses

/-- The sequential creation loop of `createBulkClasses`; `fails i` models the
store rejecting the `i`-th create.  Returns `(created, errors, final store)`. -/
def createLoop (fails : Nat → Bool) (now : String) :
    List Candidate → Nat → ClassStore → List ClassDoc × List ErrEntry × ClassStore
  | [], _, s => ([], [], s)
  | c :: rest, i, s =>
    match createClass (fails i) now c s with
    | (some doc, s₁) =>
      let r := createLoop fails now rest (i + 1) s₁
      (doc :: r.1, r.2.1, r.2.2)
    | (none, s₁) =>
      let r := createLoop fails now rest (i + 1) s₁
      (r.1, ErrEntry.mk c.date c.time "create failed" :: r.2.1, r.2.2)

/-- Constant `MAX_BULK_SIZE = 100` of the bulk committer. -/
def MAX_BULK_SIZE : Nat := 100

/-- Embedding of `createBulkClasses(bulkData)`. -/
def createBulkClasses (rangeOk : Bool) (fails : Nat → Bool) (now : String)
    (store : ClassStore) (b : BulkData) : BulkCreateResult × ClassStore :=
  let preview := previewBulkClasses rangeOk store b
  let toCreate := classesToCreate b preview
  if toCreate.length > MAX_BULK_SIZE then
    (BulkCreateResult.overflow toCreate.length, store)
  else
    let r := createLoop fails now toCreate 0 store
    let skipped :=
      if b.skipConflicts then
        preview.conflicts.map fun c => SkipEntry.mk c.date c.time "Conflict with existing class"
      else []
    (BulkCreateResult.ok ⟨r.1, skipped, r.2.1⟩, r.2.2)

theorem length_flatMap_times {β : Type} (ts : List β) (f : Nat → β → Candidate)
    (dates : List Nat) :
    (dates.flatMap fun d => ts.map (f d)).length = dates.length * ts.length := by
  induction dates with
  | nil => simp
  | cons d dates ih => simp [List.flatMap_cons, ih, Nat.succ_mul, Nat.add_comm]

theorem createLoop_total (fails : Nat → Bool) (now : String) (cands : List Candidate)
    (i : Nat) (s : ClassStore) :
    (createLoop fails now cands i s).1.length +
      (createLoop fails now cands i s).2.1.length = cands.length := by
  induction cands generalizing i s with
  | nil => simp [createLoop]
  | cons c rest ih =>
    cases hf : fails i
    · have h := ih (i + 1) ⟨s.docs ++ [builtClassDoc now c s], s.nextId + 1⟩
      simp only [createLoop, createClass, hf, Bool.false_eq_true, if_false,
        List.length_cons]
      omega
    · have h := ih (i + 1) s
      simp only [createLoop, createClass, hf, if_true, List.length_cons]
      omega

end SportsClub

/-- C1: `markAttendance` is an upsert keyed on `(class_id, student_id,
class_date)`: if a record for the triple exists it is updated in place (the
document count, and the count for the triple, are unchanged); if none exists
exactly one record is created; and saving twice for the same triple starting
from a store with no record for it leaves exactly one record, carrying the
second save's present/paid values. -/
theorem C1_markAttendance_upsert :
    (∀ (s : SportsClub.AttendanceStore) (a : SportsClub.AttendanceInput) (now : String)
      (ex : SportsClub.AttendanceDoc),
      SportsClub.getAttendanceRecord s a.class_id a.student_id a.class_date = some ex →
        (SportsClub.markAttendance false now a s).2.docs.length = s.docs.length ∧
        SportsClub.countTriple (SportsClub.markAttendance false now a s).2
            a.class_id a.student_id a.class_date =
          SportsClub.countTriple s a.class_id a.student_id a.class_date) ∧
    (∀ (s : SportsClub.AttendanceStore) (a : SportsClub.AttendanceInput) (now : String),
      SportsClub.getAttendanceRecord s a.class_id a.student_id a.class_date = none →
        (SportsClub.markAttendance false now a s).2.docs.length = s.docs.length + 1 ∧
        SportsClub.countTriple (SportsClub.markAttendance false now a s).2
          a.class_id a.student_id a.class_date = 1) ∧
    (∀ (s : SportsClub.AttendanceStore) (a₁ a₂ : SportsClub.AttendanceInput)
      (now₁ now₂ : String),
      a₂.class_id = a₁.class_id → a₂.student_id = a₁.student_id →
      a₂.class_date = a₁.class_date →
      SportsClub.getAttendanceRecord s a₁.class_id a₁.student_id a₁.class_date = none →
        SportsClub.countTriple
            (SportsClub.markAttendance false now₂ a₂
              (SportsClub.markAttendance false now₁ a₁ s).2).2
            a₁.class_id a₁.student_id a₁.class_date = 1 ∧
        ∀ d ∈ (SportsClub.markAttendance false now₂ a₂
              (SportsClub.markAttendance false now₁ a₁ s).2).2.docs,
          SportsClub.matchesTriple a₁.class_id a₁.student_id a₁.class_date d = true →
            d.is_present = SportsClub.boolToStr a₂.is_present ∧
            d.payment_complete = SportsClub.boolToStr a₂.payment_complete) := by
  refine ⟨?_, ?_, ?_⟩
  · intro s a now ex hfound
    rw [SportsClub.markAttendance_found s a now ex hfound]
    refine ⟨List.length_map _ _, ?_⟩
    unfold SportsClub.countTriple
    exact SportsClub.length_filter_map_of_pred_eq _ _
      (fun d => SportsClub.matchesTriple_update_invariant _ _ _ a now _ d) s.docs
  · intro s a now hnone
    rw [SportsClub.markAttendance_notFound s a now hnone]
    have hall : ∀ x ∈ s.docs,
        ¬ SportsClub.matchesTriple a.class_id a.student_id a.class_date x = true :=
      List.find?_eq_none.mp hnone
    constructor
    · simp
    · unfold SportsClub.countTriple
      rw [List.filter_append, List.filter_eq_nil_iff.mpr hall]
      simp [SportsClub.newAttendanceDoc_matches]
  · intro s a₁ a₂ now₁ now₂ hc hs hd hnone
    rw [SportsClub.markAttendance_notFound s a₁ now₁ hnone]
    have hall : ∀ x ∈ s.docs,
        ¬ SportsClub.matchesTriple a₁.class_id a₁.student_id a₁.class_date x = true :=
      List.find?_eq_none.mp hnone
    have hfound2 : SportsClub.getAttendanceRecord
        ⟨s.docs ++ [SportsClub.newAttendanceDoc a₁ now₁ s.nextId], s.nextId + 1⟩
        a₂.class_id a₂.student_id a₂.class_date =
        some (SportsClub.newAttendanceDoc a₁ now₁ s.nextId) := by
      unfold SportsClub.getAttendanceRecord
      rw [hc, hs, hd]
      have h0 : s.docs.find?
          (SportsClub.matchesTriple a₁.class_id a₁.student_id a₁.class_date) = none :=
        hnone
      rw [List.find?_append, h0]
      simp [SportsClub.newAttendanceDoc_matches]
    rw [SportsClub.markAttendance_found _ a₂ now₂ _ hfound2]
    constructor
    · unfold SportsClub.countTriple
      rw [SportsClub.length_filter_map_of_pred_eq _ _
        (fun d => SportsClub.matchesTriple_update_invariant _ _ _ a₂ now₂ _ d)]
      rw [List.filter_append, List.filter_eq_nil_iff.mpr hall]
      simp [SportsClub.newAttendanceDoc_matches]
    · intro d hdmem hdmatch
      obtain ⟨d₀, hd₀mem, rfl⟩ := List.mem_map.mp hdmem
      rw [SportsClub.matchesTriple_update_invariant] at hdmatch
      rcases List.mem_append.mp hd₀mem with hin | hone
      · exact absurd hdmatch (hall d₀ hin)
      · have hd₀ : d₀ = SportsClub.newAttendanceDoc a₁ now₁ s.nextId :=
          List.mem_singleton.mp hone
        subst hd₀
        simp [SportsClub.updateFields]

/-- Witness for C1 at a concrete store: two saves for the same triple on an
initially empty store leave exactly one record with the second save's values. -/
theorem C1_markAttendance_upsert_witness :
    SportsClub.countTriple
        (SportsClub.markAttendance false "t2"
          ⟨"c1", "s1", "2024-03-04", false, true, "coach", none⟩
          (SportsClub.markAttendance false "t1"
            ⟨"c1", "s1", "2024-03-04", true, false, "coach", none⟩ ⟨[], 0⟩).2).2
        "c1" "s1" "2024-03-04" = 1 :=
  (C1_markAttendance_upsert.2.2 ⟨[], 0⟩
    ⟨"c1", "s1", "2024-03-04", true, false, "coach", none⟩
    ⟨"c1", "s1", "2024-03-04", false, true, "coach", none⟩
    "t1" "t2" rfl rfl rfl (by decide)).1

/-- C9: on the update path of `markAttendance`, only the five fields
`is_present`, `payment_complete`, `marked_by`, `marked_at`, `notes` of the
matched record are written; `created_at`, `class_id`, `student_id`,
`class_date` and the id of every stored record are unchanged, and records
other than the matched one are untouched entirely. -/
theorem C9_markAttendance_update_frame (s : SportsClub.AttendanceStore)
    (a : SportsClub.AttendanceInput) (now : String) (ex : SportsClub.AttendanceDoc)
    (hfound : SportsClub.getAttendanceRecord s a.class_id a.student_id a.class_date =
      some ex) :
    (SportsClub.markAttendance false now a s).2.docs.length = s.docs.length ∧
    ∀ (i : Nat) (d d' : SportsClub.AttendanceDoc),
      s.docs[i]? = some d → (SportsClub.markAttendance false now a s).2.docs[i]? = some d' →
        d'.created_at = d.created_at ∧ d'.class_id = d.class_id ∧
        d'.student_id = d.student_id ∧ d'.class_date = d.class_date ∧
        d'.docId = d.docId ∧
        (d.docId ≠ ex.docId → d' = d) ∧
        (d.docId = ex.docId → d' = SportsClub.updateFields a now d) := by
  rw [SportsClub.markAttendance_found s a now ex hfound]
  refine ⟨List.length_map _ _, ?_⟩
  intro i d d' hd hd'
  rw [List.getElem?_map, hd] at hd'
  simp only [Option.map_some'] at hd'
  have hd'eq : d' = if d.docId == ex.docId then SportsClub.updateFields a now d else d :=
    (Option.some.inj hd').symm
  by_cases hid : d.docId = ex.docId
  · rw [hd'eq, if_pos (by simp [hid])]
    refine ⟨rfl, rfl, rfl, rfl, rfl, fun h => absurd hid h, fun _ => rfl⟩
  · rw [hd'eq, if_neg (by simp [hid])]
    exact ⟨rfl, rfl, rfl, rfl, rfl, fun _ => rfl, fun h => absurd h hid⟩

/-- Witness for C9: updating the single matching record of a one-record store
keeps its `created_at`, key fields and id. -/
theorem C9_markAttendance_update_frame_witness :
    (SportsClub.markAttendance false "t2"
        ⟨"c1", "s1", "2024-03-04", false, true, "coach", none⟩
        ⟨[⟨0, "c1", "s1", "2024-03-04", "true", "false", "coach", "t1", "", "t1"⟩], 1⟩).2.docs.length =
      1 ∧
    ∀ (i : Nat) (d d' : SportsClub.AttendanceDoc),
      [(⟨0, "c1", "s1", "2024-03-04", "true", "false", "coach", "t1", "", "t1"⟩ :
        SportsClub.AttendanceDoc)][i]? = some d →
      (SportsClub.markAttendance false "t2"
        ⟨"c1", "s1", "2024-03-04", false, true, "coach", none⟩
        ⟨[⟨0, "c1", "s1", "2024-03-04", "true", "false", "coach", "t1", "", "t1"⟩], 1⟩).2.docs[i]? =
        some d' →
        d'.created_at = d.created_at ∧ d'.class_id = d.class_id ∧
        d'.student_id = d.student_id ∧ d'.class_date = d.class_date ∧
        d'.docId = d.docId ∧
        (d.docId ≠ 0 → d' = d) ∧
        (d.docId = 0 → d' = SportsClub.updateFields
          ⟨"c1", "s1", "2024-03-04", false, true, "coach", none⟩ "t2" d) :=
  C9_markAttendance_update_frame
    ⟨[⟨0, "c1", "s1", "2024-03-04", "true", "false", "coach", "t1", "", "t1"⟩], 1⟩
    ⟨"c1", "s1", "2024-03-04", false, true, "coach", none⟩ "t2"
    ⟨0, "c1", "s1", "2024-03-04", "true", "false", "coach", "t1", "", "t1"⟩ (by decide)

/-- C6: `bulkUpdateAttendance` attempts every student's upsert independently,
collecting failures without aborting: the processed total is the list length,
the success count is the number of accepted writes and the error count the
number of rejected ones; in the 3-student scenario where only the middle
write fails, the result reports successCount = 2 and errorCount = 1 and the
two good records are persisted. -/
theorem C6_bulkUpdateAttendance_partial_failure :
    (∀ (updates : List (SportsClub.BulkUpdate × Bool))
        (classId classDate markedBy now : String) (s : SportsClub.AttendanceStore),
      (SportsClub.bulkUpdateAttendance updates classId classDate markedBy now s).1.totalProcessed
          = updates.length ∧
      (SportsClub.bulkUpdateAttendance updates classId classDate markedBy now s).1.successCount
          = (updates.filter fun uw => !uw.2).length ∧
      (SportsClub.bulkUpdateAttendance updates classId classDate markedBy now s).1.errorCount
          = (updates.filter fun uw => uw.2).length) ∧
    (SportsClub.bulkUpdateAttendance
        [(⟨"s1", true, true, none⟩, false), (⟨"s2", true, false, none⟩, true),
         (⟨"s3", false, true, none⟩, false)]
        "c1" "2024-03-04" "coach" "t1" ⟨[], 0⟩).1.successCount = 2 ∧
    (SportsClub.bulkUpdateAttendance
        [(⟨"s1", true, true, none⟩, false), (⟨"s2", true, false, none⟩, true),
         (⟨"s3", false, true, none⟩, false)]
        "c1" "2024-03-04" "coach" "t1" ⟨[], 0⟩).1.errorCount = 1 ∧
    (SportsClub.bulkUpdateAttendance
        [(⟨"s1", true, true, none⟩, false), (⟨"s2", true, false, none⟩, true),
         (⟨"s3", false, true, none⟩, false)]
        "c1" "2024-03-04" "coach" "t1" ⟨[], 0⟩).1.failed = ["s2"] ∧
    SportsClub.countTriple
      (SportsClub.bulkUpdateAttendance
        [(⟨"s1", true, true, none⟩, false), (⟨"s2", true, false, none⟩, true),
         (⟨"s3", false, true, none⟩, false)]
        "c1" "2024-03-04" "coach" "t1" ⟨[], 0⟩).2 "c1" "s1" "2024-03-04" = 1 ∧
    SportsClub.countTriple
      (SportsClub.bulkUpdateAttendance
        [(⟨"s1", true, true, none⟩, false), (⟨"s2", true, false, none⟩, true),
         (⟨"s3", false, true, none⟩, false)]
        "c1" "2024-03-04" "coach" "t1" ⟨[], 0⟩).2 "c1" "s2" "2024-03-04" = 0 ∧
    SportsClub.countTriple
      (SportsClub.bulkUpdateAttendance
        [(⟨"s1", true, true, none⟩, false), (⟨"s2", true, false, none⟩, true),
         (⟨"s3", false, true, none⟩, false)]
        "c1" "2024-03-04" "coach" "t1" ⟨[], 0⟩).2 "c1" "s3" "2024-03-04" = 1 := by
  refine ⟨?_, by decide, by decide, by decide, by decide, by decide, by decide⟩
  intro updates classId classDate markedBy now s
  have h := SportsClub.bulkRun_counts classId classDate markedBy now updates s
  exact ⟨rfl, h.1, h.2⟩

/-- C8: `normalizeBatchTime` is idempotent — legacy labels map through the
fixed legacy-to-canonical table to a fixed point, and any other input is
trimmed once, after which a second pass changes nothing. -/
theorem C8_normalizeBatchTime_idem (x : String) :
    SportsClub.normalizeBatchTime (SportsClub.normalizeBatchTime x) =
      SportsClub.normalizeBatchTime x := by
  by_cases hx : x = ""
  · rw [hx]
    decide
  · cases hl : SportsClub.batchMappings.lookup (SportsClub.jsTrim x) with
    | some v =>
      have hx1 : SportsClub.normalizeBatchTime x = v := by
        simp [SportsClub.normalizeBatchTime, hx, hl]
      obtain ⟨l₁, l₂, hsplit, -⟩ := List.lookup_eq_some_iff.mp hl
      have hmem : (SportsClub.jsTrim x, v) ∈ SportsClub.batchMappings := by
        rw [hsplit]
        exact List.mem_append_right l₁ (List.mem_cons_self _ _)
      have hall : ∀ kv ∈ SportsClub.batchMappings,
          SportsClub.normalizeBatchTime kv.2 = kv.2 := by decide
      rw [hx1]
      exact hall (SportsClub.jsTrim x, v) hmem
    | none =>
      have hx1 : SportsClub.normalizeBatchTime x = SportsClub.jsTrim x := by
        simp [SportsClub.normalizeBatchTime, hx, hl]
      rw [hx1]
      by_cases ht : SportsClub.jsTrim x = ""
      · rw [ht]
        decide
      · have hl2 : SportsClub.batchMappings.lookup
            (SportsClub.jsTrim (SportsClub.jsTrim x)) = none := by
          rw [SportsClub.jsTrim_idem]
          exact hl
        simp [SportsClub.normalizeBatchTime, ht, hl2, SportsClub.jsTrim_idem, hl]

/-- C3: every date produced by `generateDateRange` has its weekday in
`selectedDays`, lies in `[startDate, endDate]` inclusive, and is absent from
`skipDates`; the output is strictly ascending (hence duplicate-free). -/
theorem C3_generateDateRange_correct (startDate endDate : Nat)
    (selectedDays skipDates : List Nat) :
    (SportsClub.generateDateRange startDate endDate selectedDays skipDates).Pairwise (· < ·) ∧
    ∀ d ∈ SportsClub.generateDateRange startDate endDate selectedDays skipDates,
      selectedDays.contains (SportsClub.dayOfWeek d) = true ∧
      startDate ≤ d ∧ d ≤ endDate ∧ skipDates.contains d = false :=
  ⟨SportsClub.generateDateRange_sorted startDate endDate selectedDays skipDates,
   fun _ h => SportsClub.generateDateRange_mem h⟩

/-- Witness for C3 at a concrete input: the range 2024-01-01..2024-01-07
(days 19723..19729), weekdays Mon..Fri, no skips contains day 19723. -/
theorem C3_generateDateRange_correct_witness :
    [1, 2, 3, 4, 5].contains (SportsClub.dayOfWeek 19723) = true ∧
    19723 ≤ 19723 ∧ 19723 ≤ 19729 ∧ List.contains ([] : List Nat) 19723 = false :=
  (C3_generateDateRange_correct 19723 19729 [1, 2, 3, 4, 5] []).2 19723 (by decide)

/-- C7: `generateDateRange` is empty whenever the weekday selection is empty,
and empty whenever the start date is strictly after the end date. -/
theorem C7_generateDateRange_empty (startDate endDate : Nat)
    (selectedDays skipDates : List Nat) :
    SportsClub.generateDateRange startDate endDate [] skipDates = [] ∧
    (endDate < startDate →
      SportsClub.generateDateRange startDate endDate selectedDays skipDates = []) := by
  constructor
  · unfold SportsClub.generateDateRange
    simp
  · intro hlt
    unfold SportsClub.generateDateRange
    have h0 : endDate + 1 - startDate = 0 := by omega
    rw [h0]
    simp

/-- Witness for C7: start day 10 strictly after end day 5 yields the empty list. -/
theorem C7_generateDateRange_empty_witness :
    SportsClub.generateDateRange 10 5 [0, 1, 2, 3, 4, 5, 6] [] = [] :=
  (C7_generateDateRange_empty 10 5 [0, 1, 2, 3, 4, 5, 6] []).2 (by decide)

/-- C5: the planner's candidate set is the cartesian product of the generated
dates and the selected times (`totalCount = |dates| * |times|`, and the
candidate list has exactly that length, independent of any conflicts), and
every conflict entry pairs its `(date, time)` — which belongs to a candidate —
with the first existing class found at that slot. -/
theorem C5_previewBulkClasses_candidates (rangeOk : Bool) (store : SportsClub.ClassStore)
    (b : SportsClub.BulkData) :
    (SportsClub.previewBulkClasses rangeOk store b).totalClasses =
      (SportsClub.generateDateRange b.startDate b.endDate b.selectedDays
        b.skipDates).length * b.selectedTimes.length ∧
    (SportsClub.previewBulkClasses rangeOk store b).previewClasses.length =
      (SportsClub.previewBulkClasses rangeOk store b).totalClasses ∧
    ∀ cf ∈ (SportsClub.previewBulkClasses rangeOk store b).conflicts,
      (SportsClub.getClassesInDateRange store b.startDate b.endDate).find?
          (fun ex => ex.date == cf.date && ex.time == cf.time) = some cf.existingClass ∧
      ∃ c ∈ (SportsClub.previewBulkClasses rangeOk store b).previewClasses,
        c.date = cf.date ∧ c.time = cf.time := by
  refine ⟨rfl, ?_, ?_⟩
  · exact SportsClub.length_flatMap_times b.selectedTimes
      (fun d t => SportsClub.mkCandidate b d t) _
  · intro cf hcf
    cases rangeOk
    · simp [SportsClub.previewBulkClasses] at hcf
    · have hcf' : cf ∈ (((SportsClub.generateDateRange b.startDate b.endDate b.selectedDays
          b.skipDates).flatMap
            (fun date => b.selectedTimes.map fun time =>
              SportsClub.mkCandidate b date time)).filterMap (fun pc =>
            ((SportsClub.getClassesInDateRange store b.startDate b.endDate).find?
                (fun ex => ex.date == pc.date && ex.time == pc.time)).map
              fun ex => SportsClub.Conflict.mk pc.date pc.time ex)) := hcf
      obtain ⟨pc, hpc, hg⟩ := List.mem_filterMap.mp hcf'
      obtain ⟨ex, hfind, hcfeq⟩ := Option.map_eq_some'.mp hg
      subst hcfeq
      exact ⟨hfind, pc, hpc, rfl, rfl⟩

/-- Witness for C5: with one persisted class at day 5, slot "T", and a plan
covering that slot, the reported conflict's existing class is the first store
match. -/
theorem C5_previewBulkClasses_candidates_witness :
    (SportsClub.getClassesInDateRange
        ⟨[⟨0, "x", "Football", 5, "T", "i", "iid", "", 20, 0, "t0", "t0"⟩], 1⟩ 0 6).find?
        (fun ex => ex.date == (5 : Nat) && ex.time == "T") =
      some ⟨0, "x", "Football", 5, "T", "i", "iid", "", 20, 0, "t0", "t0"⟩ :=
  ((C5_previewBulkClasses_candidates true
      ⟨[⟨0, "x", "Football", 5, "T", "i", "iid", "", 20, 0, "t0", "t0"⟩], 1⟩
      ⟨0, 6, [2], ["T"], [], "i", "iid", "Title", true⟩).2.2
    ⟨5, "T", ⟨0, "x", "Football", 5, "T", "i", "iid", "", 20, 0, "t0", "t0"⟩⟩
    (by decide)).1

/-- C2: when the list of classes to create exceeds the fixed batch cap of
100, `createBulkClasses` fails fast with the overflow error before any store
write: the result carries no created/skipped/error entries and the store is
unchanged. -/
theorem C2_createBulkClasses_overflow (rangeOk : Bool) (fails : Nat → Bool)
    (now : String) (store : SportsClub.ClassStore) (b : SportsClub.BulkData)
    (h : 100 < (SportsClub.classesToCreate b
      (SportsClub.previewBulkClasses rangeOk store b)).length) :
    (SportsClub.createBulkClasses rangeOk fails now store b).1 =
      SportsClub.BulkCreateResult.overflow
        (SportsClub.classesToCreate b (SportsClub.previewBulkClasses rangeOk store b)).length ∧
    (SportsClub.createBulkClasses rangeOk fails now store b).2 = store := by
  have h' : (SportsClub.classesToCreate b
      (SportsClub.previewBulkClasses rangeOk store b)).length > SportsClub.MAX_BULK_SIZE := h
  simp only [SportsClub.createBulkClasses]
  rw [if_pos h']
  exact ⟨rfl, rfl⟩

/-- Witness for C2: a one-day plan with 101 selected times (101 candidates)
leaves the store untouched. -/
theorem C2_createBulkClasses_overflow_witness :
    (SportsClub.createBulkClasses false (fun _ => false) "t" ⟨[], 0⟩
      ⟨0, 0, [4], List.replicate 101 "T", [], "i", "iid", "Title", true⟩).2 = ⟨[], 0⟩ :=
  (C2_createBulkClasses_overflow false (fun _ => false) "t" ⟨[], 0⟩
    ⟨0, 0, [4], List.replicate 101 "T", [], "i", "iid", "Title", true⟩ (by decide)).2

/-- C4: in the committer, when `skipConflicts` is true every candidate whose
`(date, time)` occurs in the plan's conflicts is excluded from the list of
creation attempts and is reported in `skipped` with reason
"Conflict with existing class"; when `skipConflicts` is false all candidates
are attempted regardless of conflicts. -/
theorem C4_createBulkClasses_skipConflicts (rangeOk : Bool) (fails : Nat → Bool)
    (now : String) (store : SportsClub.ClassStore) (b : SportsClub.BulkData)
    (d : SportsClub.BulkCreateData)
    (hok : (SportsClub.createBulkClasses rangeOk fails now store b).1 =
      SportsClub.BulkCreateResult.ok d) :
    (b.skipConflicts = true →
      ∀ c ∈ (SportsClub.previewBulkClasses rangeOk store b).previewClasses,
        (c.date, c.time) ∈ SportsClub.conflictKeys
            (SportsClub.previewBulkClasses rangeOk store b).conflicts →
          c ∉ SportsClub.classesToCreate b (SportsClub.previewBulkClasses rangeOk store b) ∧
          SportsClub.SkipEntry.mk c.date c.time "Conflict with existing class" ∈ d.skipped) ∧
    (b.skipConflicts = false →
      SportsClub.classesToCreate b (SportsClub.previewBulkClasses rangeOk store b) =
        (SportsClub.previewBulkClasses rangeOk store b).previewClasses) := by
  by_cases hlen : (SportsClub.classesToCreate b
      (SportsClub.previewBulkClasses rangeOk store b)).length > SportsClub.MAX_BULK_SIZE
  · exfalso
    simp only [SportsClub.createBulkClasses] at hok
    rw [if_pos hlen] at hok
    simp at hok
  · have hskip : d.skipped = (if b.skipConflicts then
        (SportsClub.previewBulkClasses rangeOk store b).conflicts.map
          (fun c => SportsClub.SkipEntry.mk c.date c.time "Conflict with existing class")
      else []) := by
      simp only [SportsClub.createBulkClasses] at hok
      rw [if_neg hlen] at hok
      simp only [] at hok
      have hd := SportsClub.BulkCreateResult.ok.inj hok
      rw [← hd]
    constructor
    · intro hsc c hc hkey
      have hne : 0 < (SportsClub.previewBulkClasses rangeOk store b).conflicts.length := by
        rcases List.mem_map.mp hkey with ⟨cf, hcf, -⟩
        exact List.length_pos.mpr (List.ne_nil_of_mem hcf)
      constructor
      · unfold SportsClub.classesToCreate
        rw [if_pos (by simp [hsc, hne])]
        intro hmem
        have hpred := List.of_mem_filter hmem
        have hcont : (SportsClub.conflictKeys
            (SportsClub.previewBulkClasses rangeOk store b).conflicts).contains
            (c.date, c.time) = true := List.elem_iff.mpr hkey
        rw [hcont] at hpred
        simp at hpred
      · rw [hskip, hsc, if_pos rfl]
        rcases List.mem_map.mp hkey with ⟨cf, hcf, heq⟩
        have hd : cf.date = c.date := congrArg Prod.fst heq
        have ht : cf.time = c.time := congrArg Prod.snd heq
        exact List.mem_map.mpr ⟨cf, hcf, by rw [hd, ht]⟩
    · intro hsc
      unfold SportsClub.classesToCreate
      rw [if_neg (by simp [hsc])]

/-- Witness for C4: one persisted class at day 5 slot "T", a one-candidate
plan hitting that slot, `skipConflicts = true`: the candidate is excluded from
the creation list and reported in `skipped` with the fixed reason. -/
theorem C4_createBulkClasses_skipConflicts_witness :
    SportsClub.mkCandidate ⟨0, 6, [2], ["T"], [], "i", "iid", "Title", true⟩ 5 "T" ∉
      SportsClub.classesToCreate ⟨0, 6, [2], ["T"], [], "i", "iid", "Title", true⟩
        (SportsClub.previewBulkClasses true
          ⟨[⟨0, "x", "Football", 5, "T", "i", "iid", "", 20, 0, "t0", "t0"⟩], 1⟩
          ⟨0, 6, [2], ["T"], [], "i", "iid", "Title", true⟩) ∧
    SportsClub.SkipEntry.mk 5 "T" "Conflict with existing class" ∈
      SportsClub.BulkCreateData.skipped
        ⟨[], [⟨5, "T", "Conflict with existing class"⟩], []⟩ :=
  (C4_createBulkClasses_skipConflicts true (fun _ => false) "t"
    ⟨[⟨0, "x", "Football", 5, "T", "i", "iid", "", 20, 0, "t0", "t0"⟩], 1⟩
    ⟨0, 6, [2], ["T"], [], "i", "iid", "Title", true⟩
    ⟨[], [⟨5, "T", "Conflict with existing class"⟩], []⟩ (by decide)).1 rfl
    (SportsClub.mkCandidate ⟨0, 6, [2], ["T"], [], "i", "iid", "Title", true⟩ 5 "T")
    (by decide) (by decide)

/-- C10: if the range query for existing classes fails during a bulk preview,
`previewBulkClasses` still succeeds with an empty conflicts list, so a
subsequent `createBulkClasses` — in particular with `skipConflicts = true` —
filters nothing, reports nothing skipped, and attempts every candidate even
where persisted classes occupy the same `(date, time)`. -/
theorem C10_createBulkClasses_rangeQueryFailure (fails : Nat → Bool) (now : String)
    (store : SportsClub.ClassStore) (b : SportsClub.BulkData)
    (d : SportsClub.BulkCreateData)
    (hok : (SportsClub.createBulkClasses false fails now store b).1 =
      SportsClub.BulkCreateResult.ok d) :
    (SportsClub.previewBulkClasses false store b).conflicts = [] ∧
    SportsClub.classesToCreate b (SportsClub.previewBulkClasses false store b) =
      (SportsClub.previewBulkClasses false store b).previewClasses ∧
    d.skipped = [] ∧
    d.created.length + d.errors.length =
      (SportsClub.previewBulkClasses false store b).previewClasses.length := by
  have hconf : (SportsClub.previewBulkClasses false store b).conflicts = [] := rfl
  have htc : SportsClub.classesToCreate b (SportsClub.previewBulkClasses false store b) =
      (SportsClub.previewBulkClasses false store b).previewClasses := by
    unfold SportsClub.classesToCreate
    rw [hconf]
    simp
  by_cases hlen : (SportsClub.classesToCreate b
      (SportsClub.previewBulkClasses false store b)).length > SportsClub.MAX_BULK_SIZE
  · exfalso
    simp only [SportsClub.createBulkClasses] at hok
    rw [if_pos hlen] at hok
    simp at hok
  · simp only [SportsClub.createBulkClasses] at hok
    rw [if_neg hlen] at hok
    simp only [] at hok
    have hd := SportsClub.BulkCreateResult.ok.inj hok
    refine ⟨hconf, htc, ?_, ?_⟩
    · rw [← hd]
      cases hb : b.skipConflicts <;> simp [hconf]
    · rw [← hd]
      simp only []
      rw [htc] at *
      have := SportsClub.createLoop_total fails now
        ((SportsClub.previewBulkClasses false store b).previewClasses) 0 store
      rw [htc]
      exact this

/-- Witness for C10: with a persisted class at day 5 slot "T" but a failing
range query, the commit attempts the (conflicting) single candidate. -/
theorem C10_createBulkClasses_rangeQueryFailure_witness :
    (SportsClub.BulkCreateData.mk
        [⟨1, "Title", "Football", 5, "T", "i", "iid", "Auto-generated class for 5",
          20, 0, "t", "t"⟩] [] []).created.length +
      (SportsClub.BulkCreateData.mk
        [⟨1, "Title", "Football", 5, "T", "i", "iid", "Auto-generated class for 5",
          20, 0, "t", "t"⟩] [] []).errors.length =
    (SportsClub.previewBulkClasses false
      ⟨[⟨0, "x", "Football", 5, "T", "i", "iid", "", 20, 0, "t0", "t0"⟩], 1⟩
      ⟨0, 6, [2], ["T"], [], "i", "iid", "Title", true⟩).previewClasses.length :=
  (C10_createBulkClasses_rangeQueryFailure (fun _ => false) "t"
    ⟨[⟨0, "x", "Football", 5, "T", "i", "iid", "", 20, 0, "t0", "t0"⟩], 1⟩
    ⟨0, 6, [2], ["T"], [], "i", "iid", "Title", true⟩
    (SportsClub.BulkCreateData.mk
      [⟨1, "Title", "Football", 5, "T", "i", "iid", "Auto-generated class for 5",
        20, 0, "t", "t"⟩] [] [])
    (by decide)).2.2.2
